import Mathlib

/-!
Verification development for the Square payment plugin
(`src/square-payment-handler.ts`, `src/square.plugin.ts`).

The TypeScript module holds two module-level mutable variables
(`squareOptions`, `squareClient`); we model them as an explicit
`ModuleState` threaded through every operation.  An `async` function that
can reject is modelled as returning `Except String α` (the `String` is the
thrown `Error`'s `message`).  An in-flight promise, as seen by the
`withTimeout` race, is a `PromiseOutcome`: it either settles (fulfilled or
rejected) at some time, or never settles.  The Square SDK network calls
(`client.payments.create`, `client.payments.complete`,
`client.refunds.refundPayment`) are abstracted as a function from the
request record to a `PromiseOutcome` of the response; each handler also
returns the list of requests it actually sent, so "no network call is
made" is the statement that this list is empty.  `Logger` calls are pure
side effects with no influence on results and are not modelled.
-/

/-- JavaScript truthiness for an optional string (`undefined` or `""` are
falsy): returns `some s` exactly when the value is a non-empty string. -/
def jsTruthy (v : Option String) : Option String :=
  match v with
  | none => none
  | some s => if s = "" then none else some s

/-- JavaScript `a || b` for optional strings: `b` when `a` is falsy. -/
def jsOr (a b : Option String) : Option String :=
  match jsTruthy a with
  | some s => some s
  | none => b

/-- JavaScript `v || fallback` where the result is used as a string. -/
def jsOrDefault (v : Option String) (fallback : String) : String :=
  match jsTruthy v with
  | some s => s
  | none => fallback

/-- JavaScript `msg || fallback` for a plain string (`""` is falsy). -/
def jsMsgOr (msg fallback : String) : String :=
  if msg = "" then fallback else msg

/-- Template-string interpolation of a possibly-`undefined` value:
`undefined` renders as the string `"undefined"`. -/
def jsShowOpt (v : Option String) : String :=
  match v with
  | none => "undefined"
  | some s => s

/-- Outcome of a promise as observed by `Promise.race` in `withTimeout`:
it settles (fulfils with a value or rejects with an error message) at a
given time in milliseconds after the race starts, or it stays pending
forever. -/
inductive PromiseOutcome (T : Type) where
  | settled (settleTime : Nat) (result : Except String T)
  | pending

/-- Embedding of `withTimeout` (src/square-payment-handler.ts lines
18-27): races the promise against a `setTimeout` that rejects with
`errorMessage` after `timeoutMs` milliseconds.  If the promise settles
strictly before the deadline its own result (fulfilment or rejection)
wins; otherwise the timeout rejection wins. -/
def withTimeout {T : Type} (promise : PromiseOutcome T) (timeoutMs : Nat)
    (errorMessage : String) : Except String T :=
  match promise with
  | PromiseOutcome.settled t r => if t < timeoutMs then r else Except.error errorMessage
  | PromiseOutcome.pending => Except.error errorMessage

/-- Source default for `withTimeout`'s `timeoutMs` parameter. -/
def defaultTimeoutMs : Nat := 30000

/-- Source default for `withTimeout`'s `errorMessage` parameter. -/
def defaultTimeoutMessage : String := "Request timeout"

/-- Embedding of the `SquarePaymentHandlerOptions` interface: the
environment is the literal string `"sandbox"` or `"production"` in the
source type; we keep it as a string since `getSquareClient` compares it
to `"production"`. -/
structure SquarePaymentHandlerOptions where
  accessToken : String
  environment : String
  locationId : String
  deriving DecidableEq

/-- The processor endpoint selected when constructing a client. -/
inductive SquareEnvironment where
  | Production
  | Sandbox
  deriving DecidableEq

/-- Embedding of the constructed `SquareClient`: the arguments passed to
`new SquareClient(...)` in `getSquareClient`. -/
structure SquareClient where
  token : String
  environment : SquareEnvironment
  deriving DecidableEq

/-- The two module-level mutable variables of the handler module. -/
structure ModuleState where
  squareOptions : Option SquarePaymentHandlerOptions
  squareClient : Option SquareClient
  deriving DecidableEq

/-- The state at module load: both variables are `null`. -/
def initialState : ModuleState :=
  { squareOptions := none, squareClient := none }

/-- Embedding of `setSquareOptions`: stores the options and resets the
cached client to `null`. -/
def setSquareOptions (options : SquarePaymentHandlerOptions) (_s : ModuleState) :
    ModuleState :=
  { squareOptions := some options, squareClient := none }

/-- The message of the error thrown by `getSquareOptions` when the
options were never set. -/
def configMsg : String := "Square options not configured - call SquarePlugin.init() first"

/-- Embedding of `getSquareOptions`: throws the configuration error when
`squareOptions` is `null`. -/
def getSquareOptions (s : ModuleState) : Except String SquarePaymentHandlerOptions :=
  match s.squareOptions with
  | none => Except.error configMsg
  | some options => Except.ok options

/-- The client `getSquareClient` constructs from the stored options:
production endpoint exactly when the stored environment string is
`"production"`, sandbox otherwise. -/
def clientFromOptions (options : SquarePaymentHandlerOptions) : SquareClient :=
  { token := options.accessToken,
    environment := if options.environment = "production"
      then SquareEnvironment.Production else SquareEnvironment.Sandbox }

/-- Embedding of `getSquareClient`: returns the cached client when one
exists, otherwise constructs one from the current options (throwing the
configuration error when there are none) and caches it. -/
def getSquareClient (s : ModuleState) : Except String (SquareClient × ModuleState) :=
  match s.squareClient with
  | some c => Except.ok (c, s)
  | none =>
    match getSquareOptions s with
    | Except.error msg => Except.error msg
    | Except.ok options =>
      let c := clientFromOptions options
      Except.ok (c, { squareOptions := s.squareOptions, squareClient := some c })

/-- Embedding of `SquarePlugin.init` (src/square.plugin.ts): stores the
options via `setSquareOptions`. -/
def SquarePlugin.init (options : SquarePaymentHandlerOptions) (s : ModuleState) :
    ModuleState :=
  setSquareOptions options s

/-- The fields of the Vendure order that the handler reads. -/
structure Order where
  code : String
  total : Int
  currencyCode : String
  deriving DecidableEq

/-- The call-supplied metadata of `createPayment`: may carry the Square
token under `sourceId` or `token`. -/
structure PaymentMetadataInput where
  sourceId : Option String
  token : Option String
  deriving DecidableEq

/-- The fields of the Vendure payment record that `settlePayment` and
`createRefund` read. -/
structure PaymentRecord where
  id : String
  transactionId : Option String
  deriving DecidableEq

/-- The fields of the refund input that `createRefund` reads. -/
structure RefundInput where
  reason : Option String
  deriving DecidableEq

/-- The argument record of `client.payments.create` as built by
`createPayment`. -/
structure PaymentsCreateRequest where
  sourceId : String
  idempotencyKey : String
  amount : Int
  currency : String
  locationId : String
  referenceId : String
  note : String
  autocomplete : Bool
  deriving DecidableEq

/-- The fields of a Square payment object that the handler reads. -/
structure SquarePayment where
  id : Option String
  status : Option String
  receiptUrl : Option String
  orderId : Option String
  deriving DecidableEq

/-- Response of `client.payments.create`: the `payment` field may be
absent. -/
structure PaymentsCreateResponse where
  payment : Option SquarePayment
  deriving DecidableEq

/-- The argument record of `client.payments.complete`. -/
structure PaymentsCompleteRequest where
  paymentId : String
  deriving DecidableEq

/-- Response of `client.payments.complete`. -/
structure PaymentsCompleteResponse where
  payment : Option SquarePayment
  deriving DecidableEq

/-- The argument record of `client.refunds.refundPayment` as built by
`createRefund`. -/
structure RefundPaymentRequest where
  idempotencyKey : String
  paymentId : String
  amount : Int
  currency : String
  reason : String
  deriving DecidableEq

/-- The fields of a Square refund object that the handler reads. -/
structure SquareRefund where
  id : Option String
  status : Option String
  deriving DecidableEq

/-- Response of `client.refunds.refundPayment`. -/
structure RefundPaymentResponse where
  refund : Option SquareRefund
  deriving DecidableEq

/-- The metadata object of a `CreatePaymentResult`: each field that some
branch of `createPayment` writes, `none` when absent or `undefined`. -/
structure CreatePaymentMetadataOut where
  squarePaymentId : Option String
  status : Option String
  receiptUrl : Option String
  orderId : Option String
  error : Option String
  deriving DecidableEq

/-- The empty metadata object `{}`. -/
def cpMetaEmpty : CreatePaymentMetadataOut :=
  { squarePaymentId := none, status := none, receiptUrl := none,
    orderId := none, error := none }

/-- Embedding of Vendure's `CreatePaymentResult` as produced by this
handler: state is the literal string `"Authorized"` or `"Declined"`. -/
structure CreatePaymentResult where
  amount : Int
  state : String
  transactionId : Option String
  errorMessage : Option String
  metadata : CreatePaymentMetadataOut
  deriving DecidableEq

/-- The metadata object of a settlement result. -/
structure SettleMetadataOut where
  squarePaymentId : Option String
  status : Option String
  completedAt : Option String
  error : Option String
  deriving DecidableEq

/-- Embedding of Vendure's `SettlePaymentResult` / error result as
produced by this handler; the missing-transaction-id branch returns no
metadata object at all, hence the `Option`. -/
structure SettlePaymentResult where
  success : Bool
  errorMessage : Option String
  metadata : Option SettleMetadataOut
  deriving DecidableEq

/-- The metadata object of a refund result. -/
structure RefundMetadataOut where
  squareRefundId : Option String
  status : Option String
  refundedAt : Option String
  error : Option String
  deriving DecidableEq

/-- Embedding of Vendure's `CreateRefundResult` as produced by this
handler: state is the literal string `"Settled"` or `"Failed"`. -/
structure CreateRefundResult where
  state : String
  transactionId : Option String
  metadata : RefundMetadataOut
  deriving DecidableEq

/-- The `catch` branch of `createPayment` (lines 159-168): any error
thrown inside the `try` block is converted into a `Declined` result whose
message is `error.message || 'Square payment creation failed'`. -/
def catchDeclined (order : Order) (msg : String) : CreatePaymentResult :=
  { amount := order.total, state := "Declined", transactionId := none,
    errorMessage := some (jsMsgOr msg "Square payment creation failed"),
    metadata :=
      { squarePaymentId := none, status := none, receiptUrl := none,
        orderId := none, error := some msg } }

/-- Embedding of `createPayment` (src/square-payment-handler.ts lines
88-169).  `now` is the value of `Date.now()` used in the idempotency key;
`api` abstracts `client.payments.create` on the constructed client.  The
whole body sits inside `try { ... } catch`, so every throw site
(`getSquareClient`, `getSquareOptions`, the awaited `withTimeout`) is
converted into the `catchDeclined` result; the returned list records the
network requests actually issued. -/
def createPayment (s : ModuleState) (now : Nat) (order : Order) (amount : Int)
    (metadata : PaymentMetadataInput)
    (api : PaymentsCreateRequest → PromiseOutcome PaymentsCreateResponse) :
    Except String (CreatePaymentResult × List PaymentsCreateRequest × ModuleState) :=
  match getSquareClient s with
  | Except.error msg => Except.ok (catchDeclined order msg, [], s)
  | Except.ok (_, s1) =>
    match jsTruthy (jsOr metadata.sourceId metadata.token) with
    | none =>
      Except.ok
        ({ amount := order.total, state := "Declined", transactionId := none,
           errorMessage := some "Missing Square payment token (sourceId) from frontend",
           metadata := cpMetaEmpty }, [], s1)
    | some sourceId =>
      match getSquareOptions s1 with
      | Except.error msg => Except.ok (catchDeclined order msg, [], s1)
      | Except.ok options =>
        let req : PaymentsCreateRequest :=
          { sourceId := sourceId,
            idempotencyKey := order.code ++ "-create-" ++ Nat.repr now,
            amount := amount,
            currency := order.currencyCode,
            locationId := options.locationId,
            referenceId := order.code,
            note := "Order " ++ order.code,
            autocomplete := false }
        match withTimeout (api req) 30000 "Square payment creation timeout" with
        | Except.error msg => Except.ok (catchDeclined order msg, [req], s1)
        | Except.ok response =>
          match response.payment with
          | none =>
            Except.ok
              ({ amount := order.total, state := "Declined",
                 transactionId := none,
                 errorMessage := some "Square payment creation failed - no payment object returned",
                 metadata := cpMetaEmpty }, [req], s1)
          | some payment =>
            Except.ok
              ({ amount := order.total, state := "Authorized",
                 transactionId := some (jsOrDefault payment.id ""),
                 errorMessage := none,
                 metadata :=
                   { squarePaymentId := payment.id, status := payment.status,
                     receiptUrl := payment.receiptUrl, orderId := payment.orderId,
                     error := none } }, [req], s1)

/-- The `catch` branch of `settlePayment` (lines 221-228). -/
def settleCatch (msg : String) : SettlePaymentResult :=
  { success := false,
    errorMessage := some (jsMsgOr msg "Failed to settle Square payment"),
    metadata :=
      some { squarePaymentId := none, status := none, completedAt := none,
             error := some msg } }

/-- Embedding of `settlePayment` (src/square-payment-handler.ts lines
176-229).  `nowIso` is the value of `new Date().toISOString()` stored in
the success metadata; `api` abstracts `client.payments.complete`. -/
def settlePayment (s : ModuleState) (nowIso : String) (order : Order)
    (payment : PaymentRecord)
    (api : PaymentsCompleteRequest → PromiseOutcome PaymentsCompleteResponse) :
    Except String (SettlePaymentResult × List PaymentsCompleteRequest × ModuleState) :=
  match getSquareClient s with
  | Except.error msg => Except.ok (settleCatch msg, [], s)
  | Except.ok (_, s1) =>
    match jsTruthy payment.transactionId with
    | none =>
      Except.ok
        ({ success := false,
           errorMessage := some "Missing Square payment ID - cannot settle payment",
           metadata := none }, [], s1)
    | some squarePaymentId =>
      let req : PaymentsCompleteRequest := { paymentId := squarePaymentId }
      match withTimeout (api req) 30000 "Square payment settlement timeout" with
      | Except.error msg => Except.ok (settleCatch msg, [req], s1)
      | Except.ok response =>
        match response.payment with
        | some completedPayment =>
          if completedPayment.status = some "COMPLETED" then
            Except.ok
              ({ success := true, errorMessage := none,
                 metadata :=
                   some { squarePaymentId := completedPayment.id,
                          status := completedPayment.status, completedAt := some nowIso,
                          error := none } }, [req], s1)
          else
            Except.ok
              ({ success := false,
                 errorMessage := some ("Square payment not completed. Status: "
                   ++ jsShowOpt completedPayment.status),
                 metadata :=
                   some { squarePaymentId := none,
                          status := completedPayment.status, completedAt := none,
                          error := none } }, [req], s1)
        | none =>
          Except.ok
            ({ success := false,
               errorMessage := some ("Square payment not completed. Status: "
                 ++ jsShowOpt none),
               metadata :=
                 some { squarePaymentId := none, status := none,
                        completedAt := none, error := none } }, [req], s1)

/-- The `catch` branch of `createRefund` (lines 292-298). -/
def refundCatch (msg : String) : CreateRefundResult :=
  { state := "Failed", transactionId := none,
    metadata :=
      { squareRefundId := none, status := none, refundedAt := none,
        error := some (jsMsgOr msg "Refund failed") } }

/-- Embedding of `createRefund` (src/square-payment-handler.ts lines
236-299).  `now` is the `Date.now()` used in the idempotency key,
`nowIso` the ISO timestamp of the success metadata; `api` abstracts
`client.refunds.refundPayment`. -/
def createRefund (s : ModuleState) (now : Nat) (nowIso : String)
    (input : RefundInput) (amount : Int) (order : Order) (payment : PaymentRecord)
    (api : RefundPaymentRequest → PromiseOutcome RefundPaymentResponse) :
    Except String (CreateRefundResult × List RefundPaymentRequest × ModuleState) :=
  match getSquareClient s with
  | Except.error msg => Except.ok (refundCatch msg, [], s)
  | Except.ok (_, s1) =>
    match jsTruthy payment.transactionId with
    | none =>
      Except.ok
        ({ state := "Failed", transactionId := none,
           metadata :=
             { squareRefundId := none, status := none, refundedAt := none,
               error := some "Missing Square payment ID" } }, [], s1)
    | some squarePaymentId =>
      let req : RefundPaymentRequest :=
        { idempotencyKey := order.code ++ "-refund-" ++ payment.id ++ "-" ++ Nat.repr now,
          paymentId := squarePaymentId,
          amount := amount,
          currency := order.currencyCode,
          reason := jsOrDefault input.reason "Customer refund request" }
      match withTimeout (api req) 30000 "Square refund timeout" with
      | Except.error msg => Except.ok (refundCatch msg, [req], s1)
      | Except.ok response =>
        match response.refund with
        | some refund =>
          if refund.status = some "COMPLETED" ∨ refund.status = some "PENDING" then
            Except.ok
              ({ state := "Settled",
                 transactionId := some (jsOrDefault refund.id ""),
                 metadata :=
                   { squareRefundId := refund.id, status := refund.status,
                     refundedAt := some nowIso, error := none } }, [req], s1)
          else
            Except.ok
              ({ state := "Failed", transactionId := none,
                 metadata :=
                   { squareRefundId := none, status := none, refundedAt := none,
                     error := some ("Refund failed with status: "
                       ++ jsShowOpt refund.status) } }, [req], s1)
        | none =>
          Except.ok
            ({ state := "Failed", transactionId := none,
               metadata :=
                 { squareRefundId := none, status := none, refundedAt := none,
                   error := some ("Refund failed with status: "
                     ++ jsShowOpt none) } }, [req], s1)

/-! Decimal rendering: `Date.now()` interpolated into a template string
renders as the decimal numeral, which is exactly `Nat.repr`.  To show
that different timestamps give different idempotency keys we prove that
`Nat.repr` is injective, by parsing the numeral back. -/

/-- The payment-creation request record `createPayment` builds once it
has a truthy token `sid` and the stored options `o`. -/
def createRequestOf (now : Nat) (order : Order) (amount : Int)
    (o : SquarePaymentHandlerOptions) (sid : String) : PaymentsCreateRequest :=
  { sourceId := sid,
    idempotencyKey := order.code ++ "-create-" ++ Nat.repr now,
    amount := amount,
    currency := order.currencyCode,
    locationId := o.locationId,
    referenceId := order.code,
    note := "Order " ++ order.code,
    autocomplete := false }

/-- The refund request record `createRefund` builds once it has a truthy
transaction id `pid`. -/
def refundRequestOf (now : Nat) (input : RefundInput) (amount : Int) (order : Order)
    (payment : PaymentRecord) (pid : String) : RefundPaymentRequest :=
  { idempotencyKey := order.code ++ "-refund-" ++ payment.id ++ "-" ++ Nat.repr now,
    paymentId := pid,
    amount := amount,
    currency := order.currencyCode,
    reason := jsOrDefault input.reason "Customer refund request" }

/-- Inverse of `Nat.digitChar` on digits below ten. -/
def charToDigit (c : Char) : Nat := c.toNat - 48

/-- Little-endian parse of a digit-character list. -/
def ofDigitsChar : List Char → Nat
  | [] => 0
  | c :: cs => charToDigit c + 10 * ofDigitsChar cs

/-- Parse a decimal numeral string back to a number. -/
def parseRepr (s : String) : Nat := ofDigitsChar s.data.reverse

/-- Concrete options used to exercise the claims, matching the spec's
scenario `init(accessToken tok, environment sandbox, locationId L1)`. -/
def tOpts : SquarePaymentHandlerOptions :=
  { accessToken := "tok", environment := "sandbox", locationId := "L1" }

/-- The module state after the scenario initialization. -/
def tState : ModuleState := SquarePlugin.init tOpts initialState

/-- Concrete order used to exercise the claims. -/
def tOrder : Order := { code := "ORD1", total := 1000, currencyCode := "USD" }

/-- Concrete payment record carrying the processor transaction id. -/
def tPaymentRecord : PaymentRecord := { id := "7", transactionId := some "pay_1" }

/-- Concrete processor payment object for the authorize scenario. -/
def tPay : SquarePayment :=
  { id := some "pay_1", status := some "AUTHORIZED",
    receiptUrl := some "https://receipt", orderId := some "sq1" }

/-- Concrete settlement response: completed payment, settled quickly. -/
def tSettleOutcome : PromiseOutcome PaymentsCompleteResponse :=
  PromiseOutcome.settled 3
    (Except.ok { payment := some { id := some "pay_1", status := some "COMPLETED",
                                   receiptUrl := none, orderId := none } })

/-- Concrete refund response: pending refund, settled quickly. -/
def tRefundOutcome : PromiseOutcome RefundPaymentResponse :=
  PromiseOutcome.settled 3
    (Except.ok { refund := some { id := some "ref_1", status := some "PENDING" } })

theorem charToDigit_digitChar : ∀ d < 10, charToDigit (Nat.digitChar d) = d := by decide

theorem digitChar_lt_base_inj :
    ∀ a < 10, ∀ b < 10, Nat.digitChar a = Nat.digitChar b → a = b := by decide

/-- `Nat.toDigitsCore` with enough fuel produces the base-10 digits of
`n` (most significant first) in front of the accumulator. -/
theorem toDigitsCore_spec (f : Nat) :
    ∀ n l, n < f → 0 < n →
      Nat.toDigitsCore 10 f n l = ((Nat.digits 10 n).map Nat.digitChar).reverse ++ l := by
  induction f with
  | zero => intro n l h hpos; omega
  | succ f ih =>
    intro n l hn hpos
    rw [Nat.toDigitsCore]
    rw [Nat.digits_def' (by norm_num : (1 : Nat) < 10) hpos]
    by_cases h10 : n / 10 = 0
    · simp [h10]
    · have hdiv : n / 10 < n := Nat.div_lt_self hpos (by norm_num)
      rw [if_neg h10, ih (n / 10) _ (by omega) (Nat.pos_of_ne_zero h10)]
      simp

/-- For positive `n` the characters of `Nat.repr n` are the reversed
mapped digits. -/
theorem repr_data_of_pos (n : Nat) (h : 0 < n) :
    (Nat.repr n).data = ((Nat.digits 10 n).map Nat.digitChar).reverse := by
  show (Nat.toDigits 10 n).asString.data = _
  rw [Nat.toDigits, toDigitsCore_spec (n + 1) n [] (Nat.lt_succ_self n) h]
  simp [List.asString]

theorem ofDigitsChar_map (ds : List Nat) (h : ∀ d ∈ ds, d < 10) :
    ofDigitsChar (ds.map Nat.digitChar) = Nat.ofDigits 10 ds := by
  induction ds with
  | nil => simp [ofDigitsChar]
  | cons d ds ih =>
    rw [List.map_cons]
    show charToDigit (Nat.digitChar d) + 10 * ofDigitsChar (ds.map Nat.digitChar) = _
    rw [charToDigit_digitChar d (h d (List.mem_cons_self d ds)),
      ih (fun x hx => h x (List.mem_cons_of_mem d hx)), Nat.ofDigits_cons]

/-- `parseRepr` is a retraction of `Nat.repr`. -/
theorem parseRepr_repr (n : Nat) : parseRepr (Nat.repr n) = n := by
  rcases Nat.eq_zero_or_pos n with h | h
  · subst h; rfl
  · unfold parseRepr
    rw [repr_data_of_pos n h, List.reverse_reverse,
      ofDigitsChar_map _ (fun d hd => Nat.digits_lt_base (by norm_num) hd),
      Nat.ofDigits_digits]

/-- Decimal numerals are injective. -/
theorem natRepr_injective : Function.Injective Nat.repr := fun a b h => by
  rw [← parseRepr_repr a, ← parseRepr_repr b, h]

/-- Appending to a common prefix is injective. -/
theorem string_append_cancel_left (p a b : String) (h : p ++ a = p ++ b) : a = b := by
  apply String.ext
  have hd := congrArg String.data h
  rw [String.data_append, String.data_append] at hd
  exact List.append_cancel_left hd

/-- Two timestamp-suffixed keys with a common prefix differ when the
timestamps differ. -/
theorem key_ne_of_time_ne (p : String) (t1 t2 : Nat) (h : t1 ≠ t2) :
    p ++ Nat.repr t1 ≠ p ++ Nat.repr t2 := fun hc =>
  h (natRepr_injective (string_append_cancel_left p _ _ hc))

/-! Helper lemmas about the client accessor. -/

theorem getSquareOptions_some (s : ModuleState) (o : SquarePaymentHandlerOptions)
    (h : s.squareOptions = some o) : getSquareOptions s = Except.ok o := by
  simp [getSquareOptions, h]

theorem getSquareClient_unconfigured (s : ModuleState) (h1 : s.squareOptions = none)
    (h2 : s.squareClient = none) : getSquareClient s = Except.error configMsg := by
  simp [getSquareClient, getSquareOptions, h1, h2]

theorem getSquareClient_cached (s : ModuleState) (c : SquareClient)
    (h : s.squareClient = some c) : getSquareClient s = Except.ok (c, s) := by
  simp [getSquareClient, h]

theorem getSquareClient_construct (s : ModuleState) (o : SquarePaymentHandlerOptions)
    (hc : s.squareClient = none) (ho : s.squareOptions = some o) :
    getSquareClient s =
      Except.ok (clientFromOptions o,
        { squareOptions := some o, squareClient := some (clientFromOptions o) }) := by
  simp [getSquareClient, getSquareOptions, hc, ho]

theorem getSquareClient_of_optionsSome (s : ModuleState) (o : SquarePaymentHandlerOptions)
    (ho : s.squareOptions = some o) :
    ∃ c s1, getSquareClient s = Except.ok (c, s1) ∧ s1.squareOptions = some o := by
  cases hc : s.squareClient with
  | some c => exact ⟨c, s, getSquareClient_cached s c hc, ho⟩
  | none => exact ⟨_, _, getSquareClient_construct s o hc ho, rfl⟩

theorem getSquareClient_of_configured (s : ModuleState)
    (h : s.squareOptions.isSome ∨ s.squareClient.isSome) :
    ∃ c s1, getSquareClient s = Except.ok (c, s1) := by
  cases hc : s.squareClient with
  | some c => exact ⟨c, s, getSquareClient_cached s c hc⟩
  | none =>
    cases ho : s.squareOptions with
    | some o => exact ⟨_, _, getSquareClient_construct s o hc ho⟩
    | none => rw [hc, ho] at h; simp at h

/-- C1 counterexample: invoking `createPayment` before initialization has
stored credentials does NOT surface the configuration error as a thrown
error.  On the initial state, with a payment token supplied, the call
returns `Except.ok` with a structured `Declined` result carrying the
configuration message, and the request list is empty. -/
theorem preInit_createPayment_not_thrown :
    createPayment initialState 0
        { code := "ORD1", total := 1000, currencyCode := "USD" } 1000
        { sourceId := some "cnon:card", token := none }
        (fun _ => PromiseOutcome.pending) =
      Except.ok
        (catchDeclined { code := "ORD1", total := 1000, currencyCode := "USD" } configMsg,
         [], initialState) ∧
    (catchDeclined { code := "ORD1", total := 1000, currencyCode := "USD" }
        configMsg).state = "Declined" ∧
    (catchDeclined { code := "ORD1", total := 1000, currencyCode := "USD" }
        configMsg).errorMessage = some configMsg := by
  refine ⟨?_, rfl, ?_⟩
  · rfl
  · show some (jsMsgOr configMsg "Square payment creation failed") = some configMsg
    decide

/-- C1 (amended): if a payment operation is invoked before initialization
has stored credentials, the configuration error thrown by the client
accessor is caught by the operation's own catch block and converted into
the structured failure result of that operation — `Declined` with the
configuration message for `createPayment`, `success = false` with the
configuration message for `settlePayment`, `Failed` for `createRefund` —
and no network call is made; the error does not propagate to the host. -/
theorem preInit_config_error_structured
    (s : ModuleState) (h1 : s.squareOptions = none) (h2 : s.squareClient = none)
    (now : Nat) (nowIso : String) (order : Order) (amount : Int)
    (md : PaymentMetadataInput) (input : RefundInput) (payment : PaymentRecord)
    (apiC : PaymentsCreateRequest → PromiseOutcome PaymentsCreateResponse)
    (apiS : PaymentsCompleteRequest → PromiseOutcome PaymentsCompleteResponse)
    (apiR : RefundPaymentRequest → PromiseOutcome RefundPaymentResponse) :
    createPayment s now order amount md apiC =
      Except.ok (catchDeclined order configMsg, [], s) ∧
    settlePayment s nowIso order payment apiS =
      Except.ok (settleCatch configMsg, [], s) ∧
    createRefund s now nowIso input amount order payment apiR =
      Except.ok (refundCatch configMsg, [], s) ∧
    (catchDeclined order configMsg).state = "Declined" ∧
    (catchDeclined order configMsg).errorMessage = some configMsg ∧
    (settleCatch configMsg).success = false ∧
    (settleCatch configMsg).errorMessage = some configMsg ∧
    (refundCatch configMsg).state = "Failed" := by
  have hgc := getSquareClient_unconfigured s h1 h2
  refine ⟨?_, ?_, ?_, rfl, ?_, rfl, ?_, rfl⟩
  · simp [createPayment, hgc]
  · simp [settlePayment, hgc]
  · simp [createRefund, hgc]
  · show some (jsMsgOr configMsg "Square payment creation failed") = some configMsg
    decide
  · show some (jsMsgOr configMsg "Failed to settle Square payment") = some configMsg
    decide

/-- Witness for the amended C1 theorem at concrete inputs. -/
theorem preInit_config_error_structured_witness :
    (initialState.squareOptions = none ∧ initialState.squareClient = none) ∧
    (createPayment initialState 1 { code := "O9", total := 5, currencyCode := "USD" } 5
        { sourceId := none, token := none } (fun _ => PromiseOutcome.pending) =
      Except.ok
        (catchDeclined { code := "O9", total := 5, currencyCode := "USD" } configMsg,
         [], initialState) ∧
    settlePayment initialState "t" { code := "O9", total := 5, currencyCode := "USD" }
        { id := "p", transactionId := none } (fun _ => PromiseOutcome.pending) =
      Except.ok (settleCatch configMsg, [], initialState) ∧
    createRefund initialState 1 "t" { reason := none } 5
        { code := "O9", total := 5, currencyCode := "USD" }
        { id := "p", transactionId := none } (fun _ => PromiseOutcome.pending) =
      Except.ok (refundCatch configMsg, [], initialState) ∧
    (catchDeclined { code := "O9", total := 5, currencyCode := "USD" }
        configMsg).state = "Declined" ∧
    (catchDeclined { code := "O9", total := 5, currencyCode := "USD" }
        configMsg).errorMessage = some configMsg ∧
    (settleCatch configMsg).success = false ∧
    (settleCatch configMsg).errorMessage = some configMsg ∧
    (refundCatch configMsg).state = "Failed") :=
  ⟨⟨rfl, rfl⟩,
    preInit_config_error_structured initialState rfl rfl 1 "t"
      { code := "O9", total := 5, currencyCode := "USD" } 5
      { sourceId := none, token := none } { reason := none }
      { id := "p", transactionId := none }
      (fun _ => PromiseOutcome.pending) (fun _ => PromiseOutcome.pending)
      (fun _ => PromiseOutcome.pending)⟩

/-- C2: a `createPayment` call whose metadata contains neither a
`sourceId` nor a `token` field, made once credentials are available
(options stored or a client already cached), returns state `Declined`
with the explanatory message about the missing Square payment token, and
no processor request is issued. -/
theorem missing_token_declined
    (s : ModuleState) (h : s.squareOptions.isSome ∨ s.squareClient.isSome)
    (now : Nat) (order : Order) (amount : Int)
    (api : PaymentsCreateRequest → PromiseOutcome PaymentsCreateResponse) :
    ∃ s1, createPayment s now order amount { sourceId := none, token := none } api =
      Except.ok
        ({ amount := order.total, state := "Declined", transactionId := none,
           errorMessage := some "Missing Square payment token (sourceId) from frontend",
           metadata := cpMetaEmpty }, [], s1) := by
  obtain ⟨c, s1, hgc⟩ := getSquareClient_of_configured s h
  exact ⟨s1, by simp [createPayment, hgc, jsTruthy, jsOr]⟩

/-- Witness for C2 on an initialized state. -/
theorem missing_token_declined_witness :
    ((SquarePlugin.init
        { accessToken := "tok", environment := "sandbox", locationId := "L1" }
        initialState).squareOptions.isSome = true ∨
     (SquarePlugin.init
        { accessToken := "tok", environment := "sandbox", locationId := "L1" }
        initialState).squareClient.isSome = true) ∧
    ∃ s1, createPayment
        (SquarePlugin.init
          { accessToken := "tok", environment := "sandbox", locationId := "L1" }
          initialState)
        0 { code := "ORD1", total := 1000, currencyCode := "USD" } 1000
        { sourceId := none, token := none } (fun _ => PromiseOutcome.pending) =
      Except.ok
        ({ amount := 1000, state := "Declined", transactionId := none,
           errorMessage := some "Missing Square payment token (sourceId) from frontend",
           metadata := cpMetaEmpty }, [], s1) :=
  ⟨Or.inl rfl,
    missing_token_declined
      (SquarePlugin.init
        { accessToken := "tok", environment := "sandbox", locationId := "L1" }
        initialState)
      (Or.inl rfl) 0 { code := "ORD1", total := 1000, currencyCode := "USD" } 1000
      (fun _ => PromiseOutcome.pending)⟩

/-- C3: when the payment record has no transaction id, `settlePayment`
returns `success = false` and `createRefund` returns state `"Failed"`,
and in both cases no processor request is issued (this holds on every
module state: before initialization the caught configuration error
produces the same failure shapes, still without a network call). -/
theorem missing_transaction_id_failure
    (s : ModuleState) (now : Nat) (nowIso : String) (order : Order) (amount : Int)
    (input : RefundInput) (payment : PaymentRecord) (hp : payment.transactionId = none)
    (apiS : PaymentsCompleteRequest → PromiseOutcome PaymentsCompleteResponse)
    (apiR : RefundPaymentRequest → PromiseOutcome RefundPaymentResponse) :
    (∃ r s1, settlePayment s nowIso order payment apiS = Except.ok (r, [], s1) ∧
       r.success = false) ∧
    (∃ r s1, createRefund s now nowIso input amount order payment apiR =
       Except.ok (r, [], s1) ∧ r.state = "Failed") := by
  constructor
  · cases hgc : getSquareClient s with
    | error msg => exact ⟨settleCatch msg, s, by simp [settlePayment, hgc], rfl⟩
    | ok p =>
      exact ⟨{ success := false,
               errorMessage := some "Missing Square payment ID - cannot settle payment",
               metadata := none }, p.2,
        by simp [settlePayment, hgc, hp, jsTruthy], rfl⟩
  · cases hgc : getSquareClient s with
    | error msg => exact ⟨refundCatch msg, s, by simp [createRefund, hgc], rfl⟩
    | ok p =>
      exact ⟨{ state := "Failed", transactionId := none,
               metadata :=
                 { squareRefundId := none, status := none, refundedAt := none,
                   error := some "Missing Square payment ID" } }, p.2,
        by simp [createRefund, hgc, hp, jsTruthy], rfl⟩

/-- Witness for C3 on the initialized state with an empty transaction id. -/
theorem missing_transaction_id_failure_witness :
    ({ id := "p1", transactionId := none : PaymentRecord }.transactionId = none) ∧
    ((∃ r s1, settlePayment
        (SquarePlugin.init
          { accessToken := "tok", environment := "sandbox", locationId := "L1" }
          initialState)
        "t" { code := "ORD1", total := 1000, currencyCode := "USD" }
        { id := "p1", transactionId := none } (fun _ => PromiseOutcome.pending) =
       Except.ok (r, [], s1) ∧ r.success = false) ∧
     (∃ r s1, createRefund
        (SquarePlugin.init
          { accessToken := "tok", environment := "sandbox", locationId := "L1" }
          initialState)
        0 "t" { reason := none } 500 { code := "ORD1", total := 1000, currencyCode := "USD" }
        { id := "p1", transactionId := none } (fun _ => PromiseOutcome.pending) =
       Except.ok (r, [], s1) ∧ r.state = "Failed")) :=
  ⟨rfl,
    missing_transaction_id_failure
      (SquarePlugin.init
        { accessToken := "tok", environment := "sandbox", locationId := "L1" }
        initialState)
      0 "t" { code := "ORD1", total := 1000, currencyCode := "USD" } 500
      { reason := none } { id := "p1", transactionId := none } rfl
      (fun _ => PromiseOutcome.pending) (fun _ => PromiseOutcome.pending)⟩

/-- C4: classification of `settlePayment` outcomes when the payment
record carries a (truthy) transaction id and credentials are available.
A processor response whose payment object has status exactly
`"COMPLETED"` yields `success = true`; any other status or an absent
payment object yields `success = false` carrying the status string
(rendering an absent status as `"undefined"`); a rejected or timed-out
call yields `success = false` with the error message attached.  In every
case exactly one request, for that payment id, was issued. -/
theorem settle_status_classification
    (s : ModuleState) (h : s.squareOptions.isSome ∨ s.squareClient.isSome)
    (nowIso : String) (order : Order) (payment : PaymentRecord) (pid : String)
    (hp : jsTruthy payment.transactionId = some pid)
    (outcome : PromiseOutcome PaymentsCompleteResponse) :
    (∀ t resp cp, outcome = PromiseOutcome.settled t (Except.ok resp) → t < 30000 →
       resp.payment = some cp → cp.status = some "COMPLETED" →
       ∃ s1, settlePayment s nowIso order payment (fun _ => outcome) =
         Except.ok
           ({ success := true, errorMessage := none,
              metadata :=
                some { squarePaymentId := cp.id, status := cp.status,
                       completedAt := some nowIso, error := none } },
            [{ paymentId := pid }], s1)) ∧
    (∀ t resp, outcome = PromiseOutcome.settled t (Except.ok resp) → t < 30000 →
       resp.payment.bind SquarePayment.status ≠ some "COMPLETED" →
       ∃ r s1, settlePayment s nowIso order payment (fun _ => outcome) =
         Except.ok (r, [{ paymentId := pid }], s1) ∧ r.success = false ∧
         r.errorMessage = some ("Square payment not completed. Status: "
           ++ jsShowOpt (resp.payment.bind SquarePayment.status))) ∧
    (∀ msg, withTimeout outcome 30000 "Square payment settlement timeout" =
         Except.error msg →
       ∃ s1, settlePayment s nowIso order payment (fun _ => outcome) =
         Except.ok (settleCatch msg, [{ paymentId := pid }], s1) ∧
         (settleCatch msg).success = false ∧
         (msg ≠ "" → (settleCatch msg).errorMessage = some msg)) := by
  obtain ⟨c, s1, hgc⟩ := getSquareClient_of_configured s h
  refine ⟨?_, ?_, ?_⟩
  · intro t resp cp hout ht hpay hst
    subst hout
    exact ⟨s1, by simp [settlePayment, hgc, hp, withTimeout, ht, hpay, hst]⟩
  · intro t resp hout ht hne
    subst hout
    cases hpay : resp.payment with
    | none =>
      refine ⟨{ success := false,
                errorMessage := some ("Square payment not completed. Status: "
                  ++ jsShowOpt none),
                metadata :=
                  some { squarePaymentId := none, status := none,
                         completedAt := none, error := none } }, s1, ?_, rfl, ?_⟩
      · simp [settlePayment, hgc, hp, withTimeout, ht, hpay]
      · simp [hpay]
    | some cp =>
      have hst : ¬cp.status = some "COMPLETED" := by
        intro hc; exact hne (by simp [hpay, hc])
      refine ⟨{ success := false,
                errorMessage := some ("Square payment not completed. Status: "
                  ++ jsShowOpt cp.status),
                metadata :=
                  some { squarePaymentId := none, status := cp.status,
                         completedAt := none, error := none } }, s1, ?_, rfl, ?_⟩
      · simp [settlePayment, hgc, hp, withTimeout, ht, hpay, hst]
      · simp [hpay]
  · intro msg hmsg
    refine ⟨s1, ?_, rfl, ?_⟩
    · have hb : withTimeout ((fun _ => outcome)
          ({ paymentId := pid } : PaymentsCompleteRequest)) 30000
          "Square payment settlement timeout" = Except.error msg := hmsg
      simp [settlePayment, hgc, hp, hb]
    · intro hne
      show some (jsMsgOr msg "Failed to settle Square payment") = some msg
      simp [jsMsgOr, hne]

/-- Witness for C4 at the scenario inputs. -/
theorem settle_status_classification_witness :
    (tState.squareOptions.isSome ∨ tState.squareClient.isSome) ∧
    jsTruthy tPaymentRecord.transactionId = some "pay_1" ∧
    ((∀ t resp cp, tSettleOutcome = PromiseOutcome.settled t (Except.ok resp) →
        t < 30000 → resp.payment = some cp → cp.status = some "COMPLETED" →
        ∃ s1, settlePayment tState "t" tOrder tPaymentRecord (fun _ => tSettleOutcome) =
          Except.ok
            ({ success := true, errorMessage := none,
               metadata :=
                 some { squarePaymentId := cp.id, status := cp.status,
                        completedAt := some "t", error := none } },
             [{ paymentId := "pay_1" }], s1)) ∧
     (∀ t resp, tSettleOutcome = PromiseOutcome.settled t (Except.ok resp) →
        t < 30000 → resp.payment.bind SquarePayment.status ≠ some "COMPLETED" →
        ∃ r s1, settlePayment tState "t" tOrder tPaymentRecord (fun _ => tSettleOutcome) =
          Except.ok (r, [{ paymentId := "pay_1" }], s1) ∧ r.success = false ∧
          r.errorMessage = some ("Square payment not completed. Status: "
            ++ jsShowOpt (resp.payment.bind SquarePayment.status))) ∧
     (∀ msg, withTimeout tSettleOutcome 30000 "Square payment settlement timeout" =
          Except.error msg →
        ∃ s1, settlePayment tState "t" tOrder tPaymentRecord (fun _ => tSettleOutcome) =
          Except.ok (settleCatch msg, [{ paymentId := "pay_1" }], s1) ∧
          (settleCatch msg).success = false ∧
          (msg ≠ "" → (settleCatch msg).errorMessage = some msg))) :=
  ⟨Or.inl rfl, rfl,
    settle_status_classification tState (Or.inl rfl) "t" tOrder tPaymentRecord "pay_1"
      rfl tSettleOutcome⟩

/-- C5: classification of `createRefund` outcomes when the payment record
carries a (truthy) transaction id and credentials are available.  A
refund object with status `"COMPLETED"` or `"PENDING"` yields state
`"Settled"` with the refund id as transaction id; any other status or an
absent refund object yields state `"Failed"` with the status detail in
the metadata `error` field; a rejected or timed-out call yields
`"Failed"` with the error message in metadata.  In every case exactly one
request was issued. -/
theorem refund_status_classification
    (s : ModuleState) (h : s.squareOptions.isSome ∨ s.squareClient.isSome)
    (now : Nat) (nowIso : String) (input : RefundInput) (amount : Int)
    (order : Order) (payment : PaymentRecord) (pid : String)
    (hp : jsTruthy payment.transactionId = some pid)
    (outcome : PromiseOutcome RefundPaymentResponse) :
    (∀ t resp rf, outcome = PromiseOutcome.settled t (Except.ok resp) → t < 30000 →
       resp.refund = some rf →
       (rf.status = some "COMPLETED" ∨ rf.status = some "PENDING") →
       ∃ s1, createRefund s now nowIso input amount order payment
           (fun _ => outcome) =
         Except.ok
           ({ state := "Settled", transactionId := some (jsOrDefault rf.id ""),
              metadata :=
                { squareRefundId := rf.id, status := rf.status,
                  refundedAt := some nowIso, error := none } },
            [refundRequestOf now input amount order payment pid], s1) ∧
         (∀ rid, rf.id = some rid → jsOrDefault rf.id "" = rid)) ∧
    (∀ t resp, outcome = PromiseOutcome.settled t (Except.ok resp) → t < 30000 →
       resp.refund.bind SquareRefund.status ≠ some "COMPLETED" →
       resp.refund.bind SquareRefund.status ≠ some "PENDING" →
       ∃ r s1, createRefund s now nowIso input amount order payment
           (fun _ => outcome) =
         Except.ok (r, [refundRequestOf now input amount order payment pid], s1) ∧
         r.state = "Failed" ∧
         r.metadata.error = some ("Refund failed with status: "
           ++ jsShowOpt (resp.refund.bind SquareRefund.status))) ∧
    (∀ msg, withTimeout outcome 30000 "Square refund timeout" = Except.error msg →
       ∃ s1, createRefund s now nowIso input amount order payment
           (fun _ => outcome) =
         Except.ok (refundCatch msg,
           [refundRequestOf now input amount order payment pid], s1) ∧
         (refundCatch msg).state = "Failed" ∧
         (msg ≠ "" → (refundCatch msg).metadata.error = some msg)) := by
  obtain ⟨c, s1, hgc⟩ := getSquareClient_of_configured s h
  refine ⟨?_, ?_, ?_⟩
  · intro t resp rf hout ht hrf hst
    subst hout
    refine ⟨s1, ?_, ?_⟩
    · have hor : (rf.status = some "COMPLETED" ∨ rf.status = some "PENDING") = True :=
        eq_true hst
      simp [createRefund, refundRequestOf, hgc, hp, withTimeout, ht, hrf, hor]
    · intro rid hrid
      rw [hrid]
      by_cases hr : rid = ""
      · subst hr; simp [jsOrDefault, jsTruthy]
      · simp [jsOrDefault, jsTruthy, hr]
  · intro t resp hout ht hne1 hne2
    subst hout
    cases hrf : resp.refund with
    | none =>
      refine ⟨{ state := "Failed", transactionId := none,
                metadata :=
                  { squareRefundId := none, status := none, refundedAt := none,
                    error := some ("Refund failed with status: "
                      ++ jsShowOpt none) } }, s1, ?_, rfl, ?_⟩
      · simp [createRefund, refundRequestOf, hgc, hp, withTimeout, ht, hrf]
      · simp [hrf]
    | some rf =>
      have hst : ¬(rf.status = some "COMPLETED" ∨ rf.status = some "PENDING") := by
        rintro (hc | hc)
        · exact hne1 (by simp [hrf, hc])
        · exact hne2 (by simp [hrf, hc])
      refine ⟨{ state := "Failed", transactionId := none,
                metadata :=
                  { squareRefundId := none, status := none, refundedAt := none,
                    error := some ("Refund failed with status: "
                      ++ jsShowOpt rf.status) } }, s1, ?_, rfl, ?_⟩
      · simp [createRefund, refundRequestOf, hgc, hp, withTimeout, ht, hrf, hst]
      · simp [hrf]
  · intro msg hmsg
    refine ⟨s1, ?_, rfl, ?_⟩
    · simp [createRefund, refundRequestOf, hgc, hp, hmsg]
    · intro hne
      show some (jsMsgOr msg "Refund failed") = some msg
      simp [jsMsgOr, hne]

/-- Witness for C5 at the scenario inputs. -/
theorem refund_status_classification_witness :
    (tState.squareOptions.isSome ∨ tState.squareClient.isSome) ∧
    jsTruthy tPaymentRecord.transactionId = some "pay_1" ∧
    ((∀ t resp rf, tRefundOutcome = PromiseOutcome.settled t (Except.ok resp) →
        t < 30000 → resp.refund = some rf →
        (rf.status = some "COMPLETED" ∨ rf.status = some "PENDING") →
        ∃ s1, createRefund tState 0 "t" { reason := some "damaged" } 500 tOrder
            tPaymentRecord (fun _ => tRefundOutcome) =
          Except.ok
            ({ state := "Settled", transactionId := some (jsOrDefault rf.id ""),
               metadata :=
                 { squareRefundId := rf.id, status := rf.status,
                   refundedAt := some "t", error := none } },
             [refundRequestOf 0 { reason := some "damaged" } 500 tOrder
                tPaymentRecord "pay_1"], s1) ∧
          (∀ rid, rf.id = some rid → jsOrDefault rf.id "" = rid)) ∧
     (∀ t resp, tRefundOutcome = PromiseOutcome.settled t (Except.ok resp) →
        t < 30000 → resp.refund.bind SquareRefund.status ≠ some "COMPLETED" →
        resp.refund.bind SquareRefund.status ≠ some "PENDING" →
        ∃ r s1, createRefund tState 0 "t" { reason := some "damaged" } 500 tOrder
            tPaymentRecord (fun _ => tRefundOutcome) =
          Except.ok (r, [refundRequestOf 0 { reason := some "damaged" } 500 tOrder
            tPaymentRecord "pay_1"], s1) ∧
          r.state = "Failed" ∧
          r.metadata.error = some ("Refund failed with status: "
            ++ jsShowOpt (resp.refund.bind SquareRefund.status))) ∧
     (∀ msg, withTimeout tRefundOutcome 30000 "Square refund timeout" =
          Except.error msg →
        ∃ s1, createRefund tState 0 "t" { reason := some "damaged" } 500 tOrder
            tPaymentRecord (fun _ => tRefundOutcome) =
          Except.ok (refundCatch msg,
            [refundRequestOf 0 { reason := some "damaged" } 500 tOrder
              tPaymentRecord "pay_1"], s1) ∧
          (refundCatch msg).state = "Failed" ∧
          (msg ≠ "" → (refundCatch msg).metadata.error = some msg))) :=
  ⟨Or.inl rfl, rfl,
    refund_status_classification tState (Or.inl rfl) 0 "t" { reason := some "damaged" }
      500 tOrder tPaymentRecord "pay_1" rfl tRefundOutcome⟩

/-- C6: the timeout wrapper returns the promise's own result (fulfilment
or rejection) whenever it settles strictly before the deadline, and
otherwise rejects with an error carrying the caller-supplied message; the
source default deadline is 30000 ms.  Consequently, inside
`createPayment` a processor call that never settles is converted by the
handler's catch into the same `catchDeclined` failure shape as a
processor call that rejects, with the message identifying the timeout. -/
theorem timeout_wrapper_contract
    (T : Type) (t d : Nat) (r : Except String T) (msg : String)
    (s : ModuleState) (o : SquarePaymentHandlerOptions) (ho : s.squareOptions = some o)
    (now : Nat) (order : Order) (amount : Int) (md : PaymentMetadataInput) (sid : String)
    (hsid : jsTruthy (jsOr md.sourceId md.token) = some sid) :
    (t < d → withTimeout (PromiseOutcome.settled t r) d msg = r) ∧
    (d ≤ t → withTimeout (PromiseOutcome.settled t r) d msg = Except.error msg) ∧
    withTimeout (PromiseOutcome.pending : PromiseOutcome T) d msg =
      Except.error msg ∧
    defaultTimeoutMs = 30000 ∧
    (∃ s1, createPayment s now order amount md (fun _ => PromiseOutcome.pending) =
       Except.ok (catchDeclined order "Square payment creation timeout",
         [createRequestOf now order amount o sid], s1)) ∧
    (∀ emsg t2, t2 < 30000 →
       ∃ s1, createPayment s now order amount md
           (fun _ => PromiseOutcome.settled t2 (Except.error emsg)) =
         Except.ok (catchDeclined order emsg,
           [createRequestOf now order amount o sid], s1)) := by
  obtain ⟨c, s1, hgc, ho1⟩ := getSquareClient_of_optionsSome s o ho
  have hopt := getSquareOptions_some s1 o ho1
  refine ⟨?_, ?_, rfl, rfl, ?_, ?_⟩
  · intro ht; simp [withTimeout, ht]
  · intro ht; simp [withTimeout, Nat.not_lt.mpr ht]
  · exact ⟨s1, by simp [createPayment, createRequestOf, hgc, hsid, hopt, withTimeout]⟩
  · intro emsg t2 ht2
    exact ⟨s1, by simp [createPayment, createRequestOf, hgc, hsid, hopt, withTimeout, ht2]⟩

/-- Witness for C6 at concrete inputs. -/
theorem timeout_wrapper_contract_witness :
    (tState.squareOptions = some tOpts ∧
     jsTruthy (jsOr (some "cnon:card") none) = some "cnon:card") ∧
    ((7 < 9 → withTimeout (PromiseOutcome.settled 7 (Except.ok 1)) 9 "m" = Except.ok 1) ∧
     (9 ≤ 7 → withTimeout (PromiseOutcome.settled 7 (Except.ok 1)) 9 "m" =
        Except.error "m") ∧
     withTimeout (PromiseOutcome.pending : PromiseOutcome Nat) 9 "m" =
       Except.error "m" ∧
     defaultTimeoutMs = 30000 ∧
     (∃ s1, createPayment tState 4 tOrder 1000
         { sourceId := some "cnon:card", token := none }
         (fun _ => PromiseOutcome.pending) =
       Except.ok (catchDeclined tOrder "Square payment creation timeout",
         [createRequestOf 4 tOrder 1000 tOpts "cnon:card"], s1)) ∧
     (∀ emsg t2, t2 < 30000 →
        ∃ s1, createPayment tState 4 tOrder 1000
            { sourceId := some "cnon:card", token := none }
            (fun _ => PromiseOutcome.settled t2 (Except.error emsg)) =
          Except.ok (catchDeclined tOrder emsg,
            [createRequestOf 4 tOrder 1000 tOpts "cnon:card"], s1))) :=
  ⟨⟨rfl, rfl⟩,
    timeout_wrapper_contract Nat 7 9 (Except.ok 1) "m" tState tOpts rfl 4 tOrder 1000
      { sourceId := some "cnon:card", token := none } "cnon:card" rfl⟩

/-- C7: whenever `createPayment` reaches the processor it sends exactly
one request whose idempotency key is `orderCode ++ "-create-" ++` the
current time in milliseconds, and whenever `createRefund` reaches the
processor its idempotency key is `orderCode ++ "-refund-" ++ paymentId
++ "-" ++` the current time; hence two invocations for the same order at
different timestamps produce distinct keys. -/
theorem idempotency_key_derivation
    (s : ModuleState) (o : SquarePaymentHandlerOptions) (ho : s.squareOptions = some o)
    (now : Nat) (order : Order) (amount : Int) (md : PaymentMetadataInput) (sid : String)
    (hsid : jsTruthy (jsOr md.sourceId md.token) = some sid)
    (nowIso : String) (input : RefundInput) (payment : PaymentRecord) (pid : String)
    (hp : jsTruthy payment.transactionId = some pid)
    (apiC : PaymentsCreateRequest → PromiseOutcome PaymentsCreateResponse)
    (apiR : RefundPaymentRequest → PromiseOutcome RefundPaymentResponse) :
    (∃ r s1, createPayment s now order amount md apiC =
       Except.ok (r, [createRequestOf now order amount o sid], s1)) ∧
    (createRequestOf now order amount o sid).idempotencyKey =
      order.code ++ "-create-" ++ Nat.repr now ∧
    (∃ r s1, createRefund s now nowIso input amount order payment apiR =
       Except.ok (r, [refundRequestOf now input amount order payment pid], s1)) ∧
    (refundRequestOf now input amount order payment pid).idempotencyKey =
      order.code ++ "-refund-" ++ payment.id ++ "-" ++ Nat.repr now ∧
    (∀ t1 t2 : Nat, t1 ≠ t2 →
       order.code ++ "-create-" ++ Nat.repr t1 ≠
         order.code ++ "-create-" ++ Nat.repr t2) ∧
    (∀ t1 t2 : Nat, t1 ≠ t2 →
       order.code ++ "-refund-" ++ payment.id ++ "-" ++ Nat.repr t1 ≠
         order.code ++ "-refund-" ++ payment.id ++ "-" ++ Nat.repr t2) := by
  obtain ⟨c, s1, hgc, ho1⟩ := getSquareClient_of_optionsSome s o ho
  have hopt := getSquareOptions_some s1 o ho1
  refine ⟨?_, rfl, ?_, rfl, ?_, ?_⟩
  · cases hw : withTimeout (apiC (createRequestOf now order amount o sid)) 30000
        "Square payment creation timeout" with
    | error msg =>
      simp only [createRequestOf] at hw
      exact ⟨catchDeclined order msg, s1,
        by simp [createPayment, createRequestOf, hgc, hsid, hopt, hw]⟩
    | ok response =>
      simp only [createRequestOf] at hw
      cases hpay : response.payment with
      | none =>
        exact ⟨{ amount := order.total, state := "Declined", transactionId := none,
                 errorMessage :=
                   some "Square payment creation failed - no payment object returned",
                 metadata := cpMetaEmpty }, s1,
          by simp [createPayment, createRequestOf, hgc, hsid, hopt, hw, hpay]⟩
      | some payment2 =>
        exact ⟨{ amount := order.total, state := "Authorized",
                 transactionId := some (jsOrDefault payment2.id ""),
                 errorMessage := none,
                 metadata :=
                   { squarePaymentId := payment2.id, status := payment2.status,
                     receiptUrl := payment2.receiptUrl, orderId := payment2.orderId,
                     error := none } }, s1,
          by simp [createPayment, createRequestOf, hgc, hsid, hopt, hw, hpay]⟩
  · cases hw : withTimeout (apiR (refundRequestOf now input amount order payment pid))
        30000 "Square refund timeout" with
    | error msg =>
      simp only [refundRequestOf] at hw
      exact ⟨refundCatch msg, s1,
        by simp [createRefund, refundRequestOf, hgc, hp, hw]⟩
    | ok response =>
      simp only [refundRequestOf] at hw
      cases hrf : response.refund with
      | none =>
        exact ⟨{ state := "Failed", transactionId := none,
                 metadata :=
                   { squareRefundId := none, status := none, refundedAt := none,
                     error := some ("Refund failed with status: "
                       ++ jsShowOpt none) } }, s1,
          by simp [createRefund, refundRequestOf, hgc, hp, hw, hrf]⟩
      | some rf =>
        by_cases hst : rf.status = some "COMPLETED" ∨ rf.status = some "PENDING"
        · have hor := eq_true hst
          exact ⟨{ state := "Settled", transactionId := some (jsOrDefault rf.id ""),
                   metadata :=
                     { squareRefundId := rf.id, status := rf.status,
                       refundedAt := some nowIso, error := none } }, s1,
            by simp [createRefund, refundRequestOf, hgc, hp, hw, hrf, hor]⟩
        · exact ⟨{ state := "Failed", transactionId := none,
                   metadata :=
                     { squareRefundId := none, status := none, refundedAt := none,
                       error := some ("Refund failed with status: "
                         ++ jsShowOpt rf.status) } }, s1,
            by simp [createRefund, refundRequestOf, hgc, hp, hw, hrf, hst]⟩
  · intro t1 t2 h12
    exact key_ne_of_time_ne (order.code ++ "-create-") t1 t2 h12
  · intro t1 t2 h12
    exact key_ne_of_time_ne (order.code ++ "-refund-" ++ payment.id ++ "-") t1 t2 h12

/-- Witness for C7 at concrete inputs. -/
theorem idempotency_key_derivation_witness :
    (tState.squareOptions = some tOpts ∧
     jsTruthy (jsOr (some "cnon:card") none) = some "cnon:card" ∧
     jsTruthy tPaymentRecord.transactionId = some "pay_1") ∧
    ((∃ r s1, createPayment tState 4 tOrder 1000
         { sourceId := some "cnon:card", token := none }
         (fun _ => PromiseOutcome.pending) =
       Except.ok (r, [createRequestOf 4 tOrder 1000 tOpts "cnon:card"], s1)) ∧
     (createRequestOf 4 tOrder 1000 tOpts "cnon:card").idempotencyKey =
       tOrder.code ++ "-create-" ++ Nat.repr 4 ∧
     (∃ r s1, createRefund tState 4 "t" { reason := none } 1000 tOrder tPaymentRecord
         (fun _ => PromiseOutcome.pending) =
       Except.ok (r, [refundRequestOf 4 { reason := none } 1000 tOrder
         tPaymentRecord "pay_1"], s1)) ∧
     (refundRequestOf 4 { reason := none } 1000 tOrder tPaymentRecord
         "pay_1").idempotencyKey =
       tOrder.code ++ "-refund-" ++ tPaymentRecord.id ++ "-" ++ Nat.repr 4 ∧
     (∀ t1 t2 : Nat, t1 ≠ t2 →
        tOrder.code ++ "-create-" ++ Nat.repr t1 ≠
          tOrder.code ++ "-create-" ++ Nat.repr t2) ∧
     (∀ t1 t2 : Nat, t1 ≠ t2 →
        tOrder.code ++ "-refund-" ++ tPaymentRecord.id ++ "-" ++ Nat.repr t1 ≠
          tOrder.code ++ "-refund-" ++ tPaymentRecord.id ++ "-" ++ Nat.repr t2)) :=
  ⟨⟨rfl, rfl, rfl⟩,
    idempotency_key_derivation tState tOpts rfl 4 tOrder 1000
      { sourceId := some "cnon:card", token := none } "cnon:card" rfl "t"
      { reason := none } tPaymentRecord "pay_1" rfl
      (fun _ => PromiseOutcome.pending) (fun _ => PromiseOutcome.pending)⟩

/-- C8: the client accessor constructs the client from the stored
credentials on first use — choosing the production endpoint exactly when
the stored environment is `"production"`, sandbox otherwise — and caches
it in the module state; when a client is already cached it is returned
unchanged with no reconstruction; `setSquareOptions` replaces the stored
credentials and resets the cached client, so the next access constructs a
fresh client from the new credentials. -/
theorem client_accessor_caching
    (s : ModuleState) (o : SquarePaymentHandlerOptions) (c : SquareClient) :
    (s.squareClient = none → s.squareOptions = some o →
       getSquareClient s =
         Except.ok (clientFromOptions o,
           { squareOptions := some o, squareClient := some (clientFromOptions o) }) ∧
       (clientFromOptions o).token = o.accessToken ∧
       ((clientFromOptions o).environment = SquareEnvironment.Production ↔
          o.environment = "production")) ∧
    (s.squareClient = some c → getSquareClient s = Except.ok (c, s)) ∧
    setSquareOptions o s = { squareOptions := some o, squareClient := none } ∧
    getSquareClient (setSquareOptions o s) =
      Except.ok (clientFromOptions o,
        { squareOptions := some o, squareClient := some (clientFromOptions o) }) := by
  refine ⟨?_, ?_, rfl, ?_⟩
  · intro hc ho
    refine ⟨getSquareClient_construct s o hc ho, rfl, ?_⟩
    by_cases he : o.environment = "production" <;> simp [clientFromOptions, he]
  · intro hc
    exact getSquareClient_cached s c hc
  · exact getSquareClient_construct (setSquareOptions o s) o rfl rfl

/-- Witness for C8 at concrete inputs. -/
theorem client_accessor_caching_witness :
    (initialState.squareClient = none ∧ initialState.squareOptions = none) ∧
    ((initialState.squareClient = none → initialState.squareOptions = some tOpts →
        getSquareClient initialState =
          Except.ok (clientFromOptions tOpts,
            { squareOptions := some tOpts,
              squareClient := some (clientFromOptions tOpts) }) ∧
        (clientFromOptions tOpts).token = tOpts.accessToken ∧
        ((clientFromOptions tOpts).environment = SquareEnvironment.Production ↔
           tOpts.environment = "production")) ∧
     (initialState.squareClient =
          some { token := "x", environment := SquareEnvironment.Sandbox } →
        getSquareClient initialState =
          Except.ok ({ token := "x", environment := SquareEnvironment.Sandbox },
            initialState)) ∧
     setSquareOptions tOpts initialState =
       { squareOptions := some tOpts, squareClient := none } ∧
     getSquareClient (setSquareOptions tOpts initialState) =
       Except.ok (clientFromOptions tOpts,
         { squareOptions := some tOpts,
           squareClient := some (clientFromOptions tOpts) })) :=
  ⟨⟨rfl, rfl⟩,
    client_accessor_caching initialState tOpts
      { token := "x", environment := SquareEnvironment.Sandbox }⟩

/-- C9: after initialization, a `createPayment` call with a token against
a processor that returns a payment object yields state `"Authorized"`
with `transactionId` equal to the processor payment id and metadata
carrying the processor's status, receipt URL and processor-side order id,
and the single outbound request is sent with `autocomplete = false`
(authorize-only). -/
theorem authorize_success_result
    (opts : SquarePaymentHandlerOptions) (s0 : ModuleState) (now t : Nat)
    (order : Order) (amount : Int) (md : PaymentMetadataInput) (sid : String)
    (hsid : jsTruthy (jsOr md.sourceId md.token) = some sid)
    (payment : SquarePayment) (pid : String) (hid : payment.id = some pid)
    (hpid : pid ≠ "") (ht : t < 30000) :
    ∃ s1, createPayment (SquarePlugin.init opts s0) now order amount md
        (fun _ => PromiseOutcome.settled t (Except.ok { payment := some payment })) =
      Except.ok
        ({ amount := order.total, state := "Authorized", transactionId := some pid,
           errorMessage := none,
           metadata :=
             { squarePaymentId := payment.id, status := payment.status,
               receiptUrl := payment.receiptUrl, orderId := payment.orderId,
               error := none } },
         [createRequestOf now order amount opts sid], s1) ∧
      (createRequestOf now order amount opts sid).autocomplete = false := by
  have hjs : jsOrDefault payment.id "" = pid := by
    rw [hid]; simp [jsOrDefault, jsTruthy, hpid]
  refine ⟨{ squareOptions := some opts, squareClient := some (clientFromOptions opts) },
    ?_, rfl⟩
  simp [createPayment, createRequestOf, SquarePlugin.init, setSquareOptions,
    getSquareClient, getSquareOptions, hsid, withTimeout, ht, hjs]

/-- Witness for C9 at the spec's scenario inputs. -/
theorem authorize_success_result_witness :
    (jsTruthy (jsOr (some "cnon:card") none) = some "cnon:card" ∧
     tPay.id = some "pay_1" ∧ "pay_1" ≠ "" ∧ 3 < 30000) ∧
    (∃ s1, createPayment (SquarePlugin.init tOpts initialState) 4 tOrder 1000
        { sourceId := some "cnon:card", token := none }
        (fun _ => PromiseOutcome.settled 3 (Except.ok { payment := some tPay })) =
      Except.ok
        ({ amount := tOrder.total, state := "Authorized",
           transactionId := some "pay_1", errorMessage := none,
           metadata :=
             { squarePaymentId := tPay.id, status := tPay.status,
               receiptUrl := tPay.receiptUrl, orderId := tPay.orderId,
               error := none } },
         [createRequestOf 4 tOrder 1000 tOpts "cnon:card"], s1) ∧
      (createRequestOf 4 tOrder 1000 tOpts "cnon:card").autocomplete = false) :=
  ⟨⟨rfl, rfl, by decide, by decide⟩,
    authorize_success_result tOpts initialState 4 3 tOrder 1000
      { sourceId := some "cnon:card", token := none } "cnon:card" rfl tPay "pay_1"
      rfl (by decide) (by decide)⟩

/-- C10: in every branch of `createPayment` — configuration error caught,
missing token, missing payment object, success, or caught processor
error — the `amount` field of the returned result equals `order.total`,
while every request actually sent to the processor carries the `amount`
argument of the call; the two can therefore differ in the result whenever
`amount ≠ order.total`. -/
theorem result_amount_is_order_total
    (s : ModuleState) (now : Nat) (order : Order) (amount : Int)
    (md : PaymentMetadataInput)
    (api : PaymentsCreateRequest → PromiseOutcome PaymentsCreateResponse) :
    ∃ r calls s1, createPayment s now order amount md api = Except.ok (r, calls, s1) ∧
      r.amount = order.total ∧ ∀ req ∈ calls, req.amount = amount := by
  cases hgc : getSquareClient s with
  | error msg =>
    exact ⟨catchDeclined order msg, [], s, by simp [createPayment, hgc], rfl, by simp⟩
  | ok p =>
    obtain ⟨c, s1⟩ := p
    cases hts : jsTruthy (jsOr md.sourceId md.token) with
    | none =>
      exact ⟨{ amount := order.total, state := "Declined", transactionId := none,
               errorMessage := some "Missing Square payment token (sourceId) from frontend",
               metadata := cpMetaEmpty }, [], s1,
        by simp [createPayment, hgc, hts], rfl, by simp⟩
    | some sid =>
      cases hopt : getSquareOptions s1 with
      | error msg =>
        exact ⟨catchDeclined order msg, [], s1,
          by simp [createPayment, hgc, hts, hopt], rfl, by simp⟩
      | ok o =>
        cases hw : withTimeout (api (createRequestOf now order amount o sid)) 30000
            "Square payment creation timeout" with
        | error msg =>
          simp only [createRequestOf] at hw
          exact ⟨catchDeclined order msg, [createRequestOf now order amount o sid], s1,
            by simp [createPayment, createRequestOf, hgc, hts, hopt, hw], rfl,
            by simp [createRequestOf]⟩
        | ok response =>
          simp only [createRequestOf] at hw
          cases hpay : response.payment with
          | none =>
            exact ⟨{ amount := order.total, state := "Declined", transactionId := none,
                     errorMessage :=
                       some "Square payment creation failed - no payment object returned",
                     metadata := cpMetaEmpty },
              [createRequestOf now order amount o sid], s1,
              by simp [createPayment, createRequestOf, hgc, hts, hopt, hw, hpay], rfl,
              by simp [createRequestOf]⟩
          | some payment2 =>
            exact ⟨{ amount := order.total, state := "Authorized",
                     transactionId := some (jsOrDefault payment2.id ""),
                     errorMessage := none,
                     metadata :=
                       { squarePaymentId := payment2.id, status := payment2.status,
                         receiptUrl := payment2.receiptUrl,
                         orderId := payment2.orderId, error := none } },
              [createRequestOf now order amount o sid], s1,
              by simp [createPayment, createRequestOf, hgc, hts, hopt, hw, hpay], rfl,
              by simp [createRequestOf]⟩

/-- Witness for C10: a call whose `amount` argument (900) differs from
`order.total` (1000) still reports `order.total` in the result while the
outbound request carries 900. -/
theorem result_amount_is_order_total_witness :
    tOrder.total ≠ (900 : Int) ∧
    (∃ r calls s1, createPayment tState 4 tOrder 900
        { sourceId := some "cnon:card", token := none }
        (fun _ => PromiseOutcome.settled 3 (Except.ok { payment := some tPay })) =
      Except.ok (r, calls, s1) ∧
      r.amount = tOrder.total ∧ ∀ req ∈ calls, req.amount = 900) :=
  ⟨by decide,
    result_amount_is_order_total tState 4 tOrder 900
      { sourceId := some "cnon:card", token := none }
      (fun _ => PromiseOutcome.settled 3 (Except.ok { payment := some tPay }))⟩
